import Mathlib

/-!
Verification of the session-lifecycle core of `@emdgroup/react-auth`
(with its storage helper `@emdgroup/react-storage`).

JavaScript runtime values are shallowly embedded as the inductive type
`JVal` (rationals stand for finite JS numbers).  The browser `Storage`
holding JSON-serialized values is embedded as an association list of
parsed values: a `provider.setItem(key, JSON.stringify(item))` followed
by a later `JSON.parse` is modelled by `stripUndefined`, since
`JSON.stringify` omits object entries whose value is `undefined` and is
otherwise the identity on the values considered here.
-/

deriving instance DecidableEq for Except

namespace ReactLib

/-- A JavaScript runtime value (finite numbers as rationals, objects as
ordered field lists). -/
inductive JVal where
  | undefined : JVal
  | null : JVal
  | bool : Bool → JVal
  | num : ℚ → JVal
  | str : String → JVal
  | obj : List (String × JVal) → JVal

mutual

/-- Structural equality test on `JVal`. -/
def JVal.beq : JVal → JVal → Bool
  | .undefined, .undefined => true
  | .null, .null => true
  | .bool a, .bool b => a == b
  | .num a, .num b => a == b
  | .str a, .str b => a == b
  | .obj a, .obj b => JVal.beqFields a b
  | _, _ => false

/-- Structural equality test on object field lists. -/
def JVal.beqFields : List (String × JVal) → List (String × JVal) → Bool
  | [], [] => true
  | (k1, v1) :: r1, (k2, v2) :: r2 => k1 == k2 && JVal.beq v1 v2 && JVal.beqFields r1 r2
  | _, _ => false

end

instance : BEq JVal := ⟨JVal.beq⟩

mutual

theorem JVal.beq_refl : ∀ v : JVal, JVal.beq v v = true
  | .undefined => rfl
  | .null => rfl
  | .bool a => by simp [JVal.beq]
  | .num a => by simp [JVal.beq]
  | .str a => by simp [JVal.beq]
  | .obj fs => by simp [JVal.beq, JVal.beqFields_refl fs]

theorem JVal.beqFields_refl : ∀ fs : List (String × JVal), JVal.beqFields fs fs = true
  | [] => rfl
  | (k, v) :: rest => by
      simp [JVal.beqFields, JVal.beq_refl v, JVal.beqFields_refl rest]

end

mutual

theorem JVal.eq_of_beq : ∀ a b : JVal, JVal.beq a b = true → a = b
  | .undefined, .undefined, _ => rfl
  | .null, .null, _ => rfl
  | .bool a, .bool b, h => by simpa [JVal.beq] using h
  | .num a, .num b, h => by simpa [JVal.beq] using h
  | .str a, .str b, h => by simpa [JVal.beq] using h
  | .obj a, .obj b, h => by
      simp only [JVal.beq] at h
      exact congrArg JVal.obj (JVal.eqFields_of_beq a b h)
  | .undefined, .null, h => by simp [JVal.beq] at h
  | .undefined, .bool _, h => by simp [JVal.beq] at h
  | .undefined, .num _, h => by simp [JVal.beq] at h
  | .undefined, .str _, h => by simp [JVal.beq] at h
  | .undefined, .obj _, h => by simp [JVal.beq] at h
  | .null, .undefined, h => by simp [JVal.beq] at h
  | .null, .bool _, h => by simp [JVal.beq] at h
  | .null, .num _, h => by simp [JVal.beq] at h
  | .null, .str _, h => by simp [JVal.beq] at h
  | .null, .obj _, h => by simp [JVal.beq] at h
  | .bool _, .undefined, h => by simp [JVal.beq] at h
  | .bool _, .null, h => by simp [JVal.beq] at h
  | .bool _, .num _, h => by simp [JVal.beq] at h
  | .bool _, .str _, h => by simp [JVal.beq] at h
  | .bool _, .obj _, h => by simp [JVal.beq] at h
  | .num _, .undefined, h => by simp [JVal.beq] at h
  | .num _, .null, h => by simp [JVal.beq] at h
  | .num _, .bool _, h => by simp [JVal.beq] at h
  | .num _, .str _, h => by simp [JVal.beq] at h
  | .num _, .obj _, h => by simp [JVal.beq] at h
  | .str _, .undefined, h => by simp [JVal.beq] at h
  | .str _, .null, h => by simp [JVal.beq] at h
  | .str _, .bool _, h => by simp [JVal.beq] at h
  | .str _, .num _, h => by simp [JVal.beq] at h
  | .str _, .obj _, h => by simp [JVal.beq] at h
  | .obj _, .undefined, h => by simp [JVal.beq] at h
  | .obj _, .null, h => by simp [JVal.beq] at h
  | .obj _, .bool _, h => by simp [JVal.beq] at h
  | .obj _, .num _, h => by simp [JVal.beq] at h
  | .obj _, .str _, h => by simp [JVal.beq] at h

theorem JVal.eqFields_of_beq :
    ∀ a b : List (String × JVal), JVal.beqFields a b = true → a = b
  | [], [], _ => rfl
  | (k1, v1) :: r1, (k2, v2) :: r2, h => by
      simp only [JVal.beqFields, Bool.and_eq_true, beq_iff_eq] at h
      obtain ⟨⟨hk, hv⟩, hr⟩ := h
      rw [hk, JVal.eq_of_beq v1 v2 hv, JVal.eqFields_of_beq r1 r2 hr]
  | [], _ :: _, h => by simp [JVal.beqFields] at h
  | _ :: _, [], h => by simp [JVal.beqFields] at h

end

instance : DecidableEq JVal := fun a b =>
  if h : JVal.beq a b = true then .isTrue (JVal.eq_of_beq a b h)
  else .isFalse (fun he => h (he ▸ JVal.beq_refl a))

/-- JavaScript property access `v[k]`, yielding `undefined` when the key is
absent or the receiver is not an object. -/
def jget (v : JVal) (k : String) : JVal :=
  match v with
  | .obj fs => (((fs.find? (fun p => p.1 == k)).map Prod.snd).getD .undefined)
  | _ => .undefined

/-- The JavaScript `typeof` operator. -/
def jtypeof : JVal → String
  | .undefined => "undefined"
  | .null => "object"
  | .bool _ => "boolean"
  | .num _ => "number"
  | .str _ => "string"
  | .obj _ => "object"

/-- `isObject` from `src/packages/auth/src/index.tsx`:
`args !== undefined && args !== null && typeof args === 'object'`. -/
def isObject (v : JVal) : Bool :=
  !(v == JVal.undefined) && !(v == JVal.null) && jtypeof v == "object"

/-- `isStringOrUndefined` from the auth module:
`typeof arg === 'string' || arg === undefined || arg === null`. -/
def isStringOrUndefined (v : JVal) : Bool :=
  jtypeof v == "string" || v == JVal.undefined || v == JVal.null

/-- `isSession`, the session shape predicate of the auth module. -/
def isSession (v : JVal) : Bool :=
  isObject v &&
    jtypeof (jget v "accessToken") == "string" &&
    isStringOrUndefined (jget v "refreshToken") &&
    isStringOrUndefined (jget v "idToken") &&
    jtypeof (jget v "expires") == "number"

/-- `isTokenResponse`, the token-response shape predicate of the auth module. -/
def isTokenResponse (v : JVal) : Bool :=
  isObject v &&
    jtypeof (jget v "access_token") == "string" &&
    isStringOrUndefined (jget v "refresh_token") &&
    isStringOrUndefined (jget v "id_token") &&
    jtypeof (jget v "token_type") == "string" &&
    jtypeof (jget v "expires_in") == "number"

/-- JavaScript truthiness of a value (`if (v)`): `undefined`, `null`, `false`,
`0` and the empty string are falsy; objects are truthy. -/
def jsTruthy : JVal → Bool
  | .undefined => false
  | .null => false
  | .bool b => b
  | .num q => !(q == 0)
  | .str s => !(s == "")
  | .obj _ => true

/-- The string carried by a `JVal`, defaulting to `""` (used after a shape
predicate has established the field is a string). -/
def asStr : JVal → String
  | .str s => s
  | _ => ""

/-- The number carried by a `JVal`, defaulting to `0` (used after a shape
predicate has established the field is a number). -/
def asNum : JVal → ℚ
  | .num q => q
  | _ => 0

mutual

/-- The effect of `JSON.stringify` followed by `JSON.parse` on a value:
object entries whose value is `undefined` are omitted by `JSON.stringify`,
everything else round-trips unchanged. -/
def stripUndefined : JVal → JVal
  | .obj fs => .obj (stripFields fs)
  | v => v

/-- `stripUndefined` on an object's field list. -/
def stripFields : List (String × JVal) → List (String × JVal)
  | [] => []
  | (k, v) :: rest =>
      if v == JVal.undefined then stripFields rest
      else (k, stripUndefined v) :: stripFields rest

end

/-- Deep equality in the sense of the spec's round-trip gloss (and of
JS test-framework `toEqual`): equality after dropping `undefined`-valued
object entries. -/
def deepEqual (a b : JVal) : Bool :=
  stripUndefined a == stripUndefined b

/-- The keys of a field list are pairwise distinct (JavaScript objects
cannot carry the same own key twice). -/
def keysNodup : List (String × JVal) → Bool
  | [] => true
  | (k, _) :: rest => !(rest.any (fun p => p.1 == k)) && keysNodup rest

mutual

/-- A `JVal` that denotes an actual JavaScript value: every object has
pairwise-distinct keys. -/
def JVal.wf : JVal → Bool
  | .obj fs => keysNodup fs && JVal.wfFields fs
  | _ => true

/-- `JVal.wf` on an object's field list. -/
def JVal.wfFields : List (String × JVal) → Bool
  | [] => true
  | (_, v) :: rest => v.wf && JVal.wfFields rest

end

/-!
### Storage model (`@emdgroup/react-storage`, `src/unnamed/part_001`)

A `Storage` area is an association list from keys to the parsed form of
the JSON strings it holds.  `setItem` writes `JSON.stringify(item)` and
`getItem` parses it back, so a stored `item` reads back as
`stripUndefined item`.
-/

/-- A browser `Storage` area, holding the parsed form of its JSON strings. -/
abbrev Store := List (String × JVal)

/-- Raw `provider.getItem(key)` (the parsed value, `none` for `null`). -/
def storeRead (st : Store) (k : String) : Option JVal :=
  (List.find? (fun p => p.1 == k) st).map Prod.snd

/-- Raw `provider.setItem(key, JSON.stringify(item))`. -/
def storeWrite (st : Store) (k : String) (v : JVal) : Store :=
  (k, v) :: List.filter (fun p => !(p.1 == k)) st

/-- Raw `provider.removeItem(key)`. -/
def storeRemove (st : Store) (k : String) : Store :=
  List.filter (fun p => !(p.1 == k)) st

/-- `getItem` from the storage package: read the raw string, parse it, apply
the shape predicate; any failure yields `undefined` (here `none`). -/
def getItem (st : Store) (key : String) (predicate : Option (JVal → Bool)) :
    Option JVal :=
  match storeRead st key with
  | none => none
  | some parsed =>
      match predicate with
      | none => some parsed
      | some p => if p parsed then some parsed else none

/-- `setItem` from the storage package: a failing predicate skips the write;
otherwise the JSON-serialized item is stored (the parse of that string is
`stripUndefined item`).  The cross-tab `sync` event only notifies listeners
and does not change the stored value, so it is not modelled. -/
def setItem (st : Store) (key : String) (item : JVal)
    (predicate : Option (JVal → Bool)) : Store :=
  match predicate with
  | some p => if p item then storeWrite st key (stripUndefined item) else st
  | none => storeWrite st key (stripUndefined item)

/-- `clearItem` from the storage package. -/
def clearItem (st : Store) (key : String) : Store :=
  storeRemove st key

/-!
### Token refresh (`_refreshSession`, auth module lines 426-454)

The network is abstracted by the parsed `body` the token endpoint returns
(`request` yields `{ body, error }`); `now` is `Date.now()` in epoch ms.
-/

/-- The session object `_refreshSession` builds from a token response. -/
def sessionFromTokenResponse (now : ℚ) (body : JVal) : JVal :=
  .obj [("accessToken", jget body "access_token"),
        ("refreshToken", jget body "refresh_token"),
        ("idToken", jget body "id_token"),
        ("expires", .num (now + asNum (jget body "expires_in") * 1000))]

/-- `_refreshSession`: on a token-shaped body, build the new session, write it
under `'session'` (no predicate is passed to `setItem` there) and resolve
with it; otherwise reject and leave the store untouched. -/
def refreshSessionRun (now : ℚ) (st : Store) (body : JVal) :
    Except Unit JVal × Store :=
  if isTokenResponse body then
    let session := sessionFromTokenResponse now body
    (.ok session, setItem st "session" session none)
  else
    (.error (), st)

/-!
### Access token accessor (`_getAccessToken`, auth module lines 494-520)

`refreshBody` is the body the token endpoint would return if a refresh
network call were issued.  The `Nat` component counts token-endpoint
POSTs actually performed.
-/

/-- `_getAccessToken`: read the session through the `isSession` predicate;
reject when absent; refresh when expired *and* `session.refreshToken` is
truthy (clearing the session when the refresh fails); otherwise resolve
with the stored access token without a network call. -/
def getAccessTokenRun (now : ℚ) (st : Store) (refreshBody : JVal) :
    Except String String × Store × Nat :=
  match getItem st "session" (some isSession) with
  | none => (.error "User is not authenticated", st, 0)
  | some session =>
      if asNum (jget session "expires") ≤ now && jsTruthy (jget session "refreshToken") then
        match refreshSessionRun now st refreshBody with
        | (.ok newSession, st1) => (.ok (asStr (jget newSession "accessToken")), st1, 1)
        | (.error _, st1) =>
            (.error "User is not authenticated", clearItem st1 "session", 1)
      else
        (.ok (asStr (jget session "accessToken")), st, 0)

/-!
### Deduplication slots (module-level `refreshSessionPromise` /
`getAccessTokenPromise`, auth module lines 382, 406-424, 456, 476-492)

Promises are named by identifiers; the module state carries the nullable
in-flight slot and the list of token-endpoint POSTs issued so far
(recorded with the arguments they were issued for).
-/

/-- Arguments of `refreshSession` (the cancellation signal does not influence
the slot logic). -/
structure RefreshArgs where
  idpHost : String
  clientId : String
  refreshToken : String
deriving DecidableEq

/-- Arguments of `getAccessToken`. -/
structure AccessArgs where
  idpHost : String
  clientId : String
deriving DecidableEq

/-- How a pending promise settles. -/
inductive Outcome where
  | success : Outcome
  | failure : Outcome
  | cancelled : Outcome
deriving DecidableEq

/-- The module-level state of one dedup slot: the in-flight promise (if any),
a fresh-name supply, and the POSTs issued so far. -/
structure SlotState (α : Type) where
  slot : Option Nat
  nextId : Nat
  posts : List α
deriving DecidableEq

/-- `refreshSession` (and identically `getAccessToken`): if a promise is in
flight, return it unchanged — the arguments are not even read; otherwise
start the underlying attempt (one token-endpoint POST), store its promise
in the slot, and return it. -/
def callDedup {α : Type} (a : α) (s : SlotState α) : Nat × SlotState α :=
  match s.slot with
  | some p => (p, s)
  | none =>
      (s.nextId,
        { slot := some s.nextId, nextId := s.nextId + 1, posts := s.posts ++ [a] })

/-- The `finally`-equivalent attached when the attempt was started: whatever
the outcome, the slot is cleared. -/
def settleDedup {α : Type} (_o : Outcome) (s : SlotState α) : SlotState α :=
  { s with slot := none }

/-!
### PKCE challenge (`base64encode` / `sha256`, auth module lines 13-27)

`btoa` maps a byte sequence to standard base64 with padding; `base64encode`
then rewrites `+` to `-`, `/` to `_` and drops `=`.  SHA-256 itself is kept
abstract (a parameter), since only the encoding of its digest matters here.
-/

/-- The standard base64 alphabet. -/
def b64Alphabet : List Char :=
  "ABCDEFGHIJKLMNOPQRSTUVWXYZabcdefghijklmnopqrstuvwxyz0123456789+/".toList

/-- The base64 digit for a 6-bit group. -/
def b64Char (n : Nat) : Char := b64Alphabet.getD n 'A'

/-- `btoa` on a byte sequence: 3-byte groups become 4 base64 digits, a final
group of 1 or 2 bytes is padded with `=`. -/
def btoa : List Nat → List Char
  | [] => []
  | [b1] => [b64Char (b1 / 4), b64Char (b1 % 4 * 16), '=', '=']
  | [b1, b2] => [b64Char (b1 / 4), b64Char (b1 % 4 * 16 + b2 / 16), b64Char (b2 % 16 * 4), '=']
  | b1 :: b2 :: b3 :: rest =>
      b64Char (b1 / 4) :: b64Char (b1 % 4 * 16 + b2 / 16) ::
        b64Char (b2 % 16 * 4 + b3 / 64) :: b64Char (b3 % 64) :: btoa rest

/-- `base64encode` from the auth module:
`btoa(...).replace(/\+/g,'-').replace(/\//g,'_').replace(/=/g,'')`. -/
def base64encode (bytes : List Nat) : String :=
  String.mk ((((btoa bytes).map (fun c => if c = '+' then '-' else c)).map
      (fun c => if c = '/' then '_' else c)).filter (fun c => !(c = '=')))

/-- The PKCE challenge of a verifier string: `base64encode(await sha256(v))`,
with the SHA-256 digest function abstract. -/
def challenge (sha256 : String → List Nat) (verifier : String) : String :=
  base64encode (sha256 verifier)

/-!
### Authorize URL construction (`login`, auth module lines 214-250)

`URLSearchParams` is an ordered list of key/value pairs.  `set(k, v)`
replaces the value of the first entry with key `k` and removes the other
entries with that key, appending when `k` is absent — so every entry of
`additionalParameters` applied through `set` overrides an existing key.
Percent-decoding is not modelled (`+` is decoded to a space); the inputs
considered contain no percent escapes.
-/

/-- `URLSearchParams.set`. -/
def uspSet : List (String × String) → String → String → List (String × String)
  | [], k, v => [(k, v)]
  | (k', v') :: rest, k, v =>
      if k' = k then (k, v) :: rest.filter (fun p => !(p.1 == k))
      else (k', v') :: uspSet rest k v

/-- Form-urlencoding's `+` stands for a space. -/
def plusToSpace (c : Char) : Char :=
  if c = '+' then ' ' else c

/-- Split a character list on a separator (`"a&b"` into `["a", "b"]`,
keeping empty segments). -/
def splitOnChar (sep : Char) : List Char → List (List Char)
  | [] => [[]]
  | c :: rest =>
      let r := splitOnChar sep rest
      if c = sep then [] :: r
      else
        match r with
        | [] => [[c]]
        | h :: t => (c :: h) :: t

/-- Split a segment at its first `=`; a missing `=` means an empty value. -/
def splitFirstEq : List Char → List Char × List Char
  | [] => ([], [])
  | c :: rest =>
      if c = '=' then ([], rest)
      else
        let p := splitFirstEq rest
        (c :: p.1, p.2)

/-- `new URLSearchParams(string)`: drop one leading `?`, split on `&`, skip
empty segments, split each segment at its first `=`. -/
def parseQueryString (s : String) : List (String × String) :=
  let cs0 := s.data
  let cs := match cs0 with | '?' :: rest => rest | _ => cs0
  (splitOnChar '&' cs).filterMap fun seg =>
    match seg with
    | [] => none
    | _ :: _ =>
        let p := splitFirstEq seg
        some (String.mk (p.1.map plusToSpace), String.mk (p.2.map plusToSpace))

/-- The query parameters `login` builds for the authorize URL: the required
record in source order, then each entry of `additionalParameters` (when
truthy) applied with `URLSearchParams.set`. -/
def loginParams (clientId : String) (domainHint : Option String)
    (redirectUri ch : String) (prompt acrValues : Option String)
    (additionalParameters : Option String) : List (String × String) :=
  let base : List (String × String) :=
    [("client_id", clientId),
     ("domain_hint", domainHint.getD ""),
     ("response_type", "code"),
     ("scope", "openid email"),
     ("redirect_uri", redirectUri),
     ("code_challenge_method", "S256"),
     ("code_challenge", ch),
     ("prompt", prompt.getD ""),
     ("acr_values", acrValues.getD "")]
  match additionalParameters with
  | some s =>
      if s = "" then base
      else (parseQueryString s).foldl (fun acc kv => uspSet acc kv.1 kv.2) base
  | none => base

/-- First-match lookup in a parameter list (how a URL query is read). -/
def lookupParam (ps : List (String × String)) (k : String) : Option String :=
  (ps.find? (fun p => p.1 == k)).map Prod.snd

/-- The value of the last occurrence of key `k` in an entry list (the value
the last `URLSearchParams.set` for `k` wrote). -/
def lastValue : List (String × String) → String → Option String
  | [], _ => none
  | (k', v) :: rest, k =>
      match lastValue rest k with
      | some w => some w
      | none => if k' = k then some v else none

/-- The observable result of `login`: the verifier stored under `pkceKey`
and the authorize URL's query parameters. -/
structure LoginResult where
  storedKey : String
  urlParams : List (String × String)

/-- `login` (redirect handling aside): encode the fresh verifier bytes, store
them as `pkceKey`, derive the challenge from the *encoded* key, and build the
authorize query. -/
def loginRun (sha256 : String → List Nat) (verifierBytes : List Nat)
    (clientId : String) (domainHint : Option String) (redirectUri : String)
    (prompt acrValues : Option String) (additionalParameters : Option String) :
    LoginResult :=
  let encodedKey := base64encode verifierBytes
  let ch := challenge sha256 encodedKey
  { storedKey := encodedKey,
    urlParams := loginParams clientId domainHint redirectUri ch prompt acrValues
      additionalParameters }

/-!
### Authorization-code exchange (auth module lines 277-303)

The `useEffect` that consumes a successful token-endpoint response.  The
provider's React state is flattened into `FlowState`: the durable store
(holding `'session'`), the tab-scoped `pkceKey` and `entrypoint`, the
`loginUrl` state, and the navigation target of `document.location.replace`.
-/

/-- JavaScript truthiness of an optional string (`code && entrypoint`). -/
def optTruthy : Option String → Bool
  | none => false
  | some s => !(s == "")

/-- The provider state the exchange effect touches. -/
structure FlowState where
  localStore : Store
  pkceKey : Option String
  entrypoint : Option String
  loginUrl : Option String
  navTarget : Option String

/-- The fields of the session object the exchange effect persists:
`refresh_token` is taken over only when the `refreshSession` provider option
is enabled, otherwise the field is `undefined`. -/
def exchangeFields (refreshSessionOpt : Bool) (now : ℚ) (tokenResponse : JVal) :
    List (String × JVal) :=
  [("accessToken", jget tokenResponse "access_token"),
   ("refreshToken",
     if refreshSessionOpt then jget tokenResponse "refresh_token" else .undefined),
   ("idToken", jget tokenResponse "id_token"),
   ("expires", .num (now + asNum (jget tokenResponse "expires_in") * 1000))]

/-- The session object the exchange effect persists. -/
def sessionFromExchange (refreshSessionOpt : Bool) (now : ℚ) (tokenResponse : JVal) :
    JVal :=
  .obj (exchangeFields refreshSessionOpt now tokenResponse)

/-- The exchange `useEffect`: when no session is stored, the token query
succeeded and the response is token-shaped, clear the verifier and
`loginUrl`, persist the new session through `updateSession` (a `setItem`
guarded by `isSession`), and — when a code and an entrypoint are present —
clear the entrypoint and navigate back to it.  Otherwise do nothing. -/
def exchangeEffect (refreshSessionOpt : Bool) (now : ℚ) (tokenStatus : String)
    (tokenResponse : JVal) (code : Option String) (st : FlowState) : FlowState :=
  let session := getItem st.localStore "session" (some isSession)
  if session.isNone && tokenStatus == "success" && isTokenResponse tokenResponse then
    let newSession := sessionFromExchange refreshSessionOpt now tokenResponse
    let st1 : FlowState :=
      { st with
        pkceKey := none,
        loginUrl := none,
        localStore := setItem st.localStore "session" newSession (some isSession) }
    if optTruthy code && optTruthy st1.entrypoint then
      { st1 with entrypoint := none, navTarget := st1.entrypoint }
    else st1
  else st

/-!
## Theorems
-/

/-- C2: while a refresh is in flight, a second `refreshSession` call receives
the very same pending result and no second token-endpoint POST is issued;
once the attempt settles — whatever the outcome — the slot is cleared, and a
subsequent call starts a fresh attempt (a new promise, a new POST). -/
theorem c2_refresh_dedup_single_post (s : SlotState RefreshArgs)
    (a1 a2 : RefreshArgs) (o : Outcome) (h : s.slot = none) :
    (callDedup a2 (callDedup a1 s).2).1 = (callDedup a1 s).1 ∧
    (callDedup a2 (callDedup a1 s).2).2.posts = s.posts ++ [a1] ∧
    (settleDedup o (callDedup a2 (callDedup a1 s).2).2).slot = none ∧
    (callDedup a2 (settleDedup o (callDedup a2 (callDedup a1 s).2).2)).1 ≠
      (callDedup a1 s).1 ∧
    (callDedup a2 (settleDedup o (callDedup a2 (callDedup a1 s).2).2)).2.posts =
      s.posts ++ [a1, a2] := by
  obtain ⟨slot, nextId, posts⟩ := s
  simp only at h
  subst h
  refine ⟨rfl, rfl, rfl, ?_, by simp [callDedup, settleDedup]⟩
  simp [callDedup, settleDedup]

/-- An empty refresh-dedup module state, for concrete runs. -/
def s0R : SlotState RefreshArgs := ⟨none, 0, []⟩

/-- A first concrete refresh argument record. -/
def rA : RefreshArgs := ⟨"idp1", "c1", "r1"⟩

/-- A second, different concrete refresh argument record. -/
def rB : RefreshArgs := ⟨"idp2", "c2", "r2"⟩

/-- C2 witness: the deduplication scenario run from the initial module state
with two distinct argument records. -/
theorem c2_witness :
    s0R.slot = none ∧
    ((callDedup rB (callDedup rA s0R).2).1 = (callDedup rA s0R).1 ∧
     (callDedup rB (callDedup rA s0R).2).2.posts = s0R.posts ++ [rA] ∧
     (settleDedup .cancelled (callDedup rB (callDedup rA s0R).2).2).slot = none ∧
     (callDedup rB
        (settleDedup .cancelled (callDedup rB (callDedup rA s0R).2).2)).1 ≠
      (callDedup rA s0R).1 ∧
     (callDedup rB
        (settleDedup .cancelled (callDedup rB (callDedup rA s0R).2).2)).2.posts =
      s0R.posts ++ [rA, rB]) :=
  ⟨rfl, c2_refresh_dedup_single_post s0R rA rB .cancelled rfl⟩

/-- C9: while an attempt is in flight, a second concurrent call to
`refreshSession` (resp. `getAccessToken`) returns the stored pending promise
without reading its own arguments: calls that differ only in `idpHost`,
`clientId` or `refreshToken` produce identical outcomes and leave the module
state unchanged. -/
theorem c9_inflight_ignores_arguments (p q : Nat)
    (s : SlotState RefreshArgs) (t : SlotState AccessArgs)
    (a a' : RefreshArgs) (g g' : AccessArgs)
    (hs : s.slot = some p) (ht : t.slot = some q) :
    callDedup a s = callDedup a' s ∧ callDedup a s = (p, s) ∧
    callDedup g t = callDedup g' t ∧ callDedup g t = (q, t) := by
  simp [callDedup, hs, ht]

/-- A refresh-dedup state with promise 7 in flight. -/
def sR7 : SlotState RefreshArgs := ⟨some 7, 8, [rA]⟩

/-- An access-token-dedup state with promise 3 in flight. -/
def sA3 : SlotState AccessArgs := ⟨some 3, 4, []⟩

/-- A first concrete access-token argument record. -/
def gA : AccessArgs := ⟨"hostA", "idA"⟩

/-- A second, different concrete access-token argument record. -/
def gB : AccessArgs := ⟨"hostB", "idB"⟩

/-- C9 witness: an occupied refresh slot and an occupied access-token slot,
probed with differing argument records. -/
theorem c9_witness :
    sR7.slot = some 7 ∧ sA3.slot = some 3 ∧
    (callDedup rA sR7 = callDedup rB sR7 ∧ callDedup rA sR7 = (7, sR7) ∧
     callDedup gA sA3 = callDedup gB sA3 ∧ callDedup gA sA3 = (3, sA3)) :=
  ⟨rfl, rfl, c9_inflight_ignores_arguments 7 3 sR7 sA3 rA rB gA gB rfl rfl⟩

/-- C3: when the token endpoint's body is not token-shaped, `_refreshSession`
rejects and the store is left exactly as it was — no write to `'session'`. -/
theorem c3_refresh_failure_no_write (now : ℚ) (st : Store) (body : JVal)
    (h : isTokenResponse body = false) :
    refreshSessionRun now st body = (.error (), st) := by
  simp [refreshSessionRun, h]

/-- C3 witness: a `\x7berror: "invalid_grant"\x7d` body against a store holding a
session leaves the store unchanged and rejects. -/
theorem c3_witness :
    isTokenResponse (JVal.obj [("error", JVal.str "invalid_grant")]) = false ∧
    refreshSessionRun 0
        [("session", JVal.obj [("accessToken", JVal.str "old"), ("expires", JVal.num 99)])]
        (JVal.obj [("error", JVal.str "invalid_grant")]) =
      (.error (),
        [("session", JVal.obj [("accessToken", JVal.str "old"), ("expires", JVal.num 99)])]) :=
  ⟨by decide, c3_refresh_failure_no_write 0 _ _ (by decide)⟩

/-- C7: when nothing stored under `'session'` passes the session shape
predicate, `_getAccessToken` rejects with the authentication error, issues no
network call and resolves with no token. -/
theorem c7_no_session_rejects (now : ℚ) (st : Store) (refreshBody : JVal)
    (h : getItem st "session" (some isSession) = none) :
    getAccessTokenRun now st refreshBody =
      (.error "User is not authenticated", st, 0) := by
  simp [getAccessTokenRun, h]

/-- C7 witness: a store whose `'session'` value fails `isSession` (its
`expires` is a string). -/
theorem c7_witness :
    getItem [("session", JVal.obj [("accessToken", JVal.str "a"), ("expires", JVal.str "soon")])]
        "session" (some isSession) = none ∧
    getAccessTokenRun 5
        [("session", JVal.obj [("accessToken", JVal.str "a"), ("expires", JVal.str "soon")])]
        JVal.null =
      (.error "User is not authenticated",
        [("session", JVal.obj [("accessToken", JVal.str "a"), ("expires", JVal.str "soon")])], 0) :=
  ⟨by decide, c7_no_session_rejects 5 _ JVal.null (by decide)⟩

/-- C10: the session shape predicate only requires `expires` to be a number —
any rational `expires` (past, zero, negative, non-integral) is accepted, and
a storage read returns such an already-expired value as a valid session. -/
theorem c10_expires_unchecked (a : String) (q : ℚ) :
    isSession (JVal.obj [("accessToken", JVal.str a), ("expires", JVal.num q)]) = true ∧
    getItem [("session", JVal.obj [("accessToken", JVal.str a), ("expires", JVal.num q)])]
        "session" (some isSession) =
      some (JVal.obj [("accessToken", JVal.str a), ("expires", JVal.num q)]) :=
  ⟨rfl, rfl⟩

/-- A store holding a session that expired at epoch 0 and carries no
`refreshToken`. -/
def staleStore : Store :=
  [("session", JVal.obj [("accessToken", JVal.str "stale"), ("expires", JVal.num 0)])]

/-- C1 counterexample: at time 1000 the stored session of `staleStore` is
expired and has no `refreshToken`, yet `_getAccessToken` *resolves* with the
stale `"stale"` access token (zero network calls) instead of rejecting with
an authentication error. -/
theorem c1_counterexample :
    getAccessTokenRun 1000 staleStore JVal.null =
      (.ok "stale", staleStore, 0) := by
  decide

/-- C1 amended: for every stored session whose `expires` is in the past and
whose `refreshToken` is absent (falsy), `_getAccessToken` performs no network
call and resolves with the stored — stale — access token, leaving the store
unchanged. -/
theorem c1_amended_stale_token_returned (now : ℚ) (st : Store) (b sv : JVal)
    (hget : getItem st "session" (some isSession) = some sv)
    (_hexp : asNum (jget sv "expires") ≤ now)
    (hrt : jsTruthy (jget sv "refreshToken") = false) :
    getAccessTokenRun now st b = (.ok (asStr (jget sv "accessToken")), st, 0) := by
  simp [getAccessTokenRun, hget, hrt]

/-- C1 witness: the amended behaviour at the concrete stale store. -/
theorem c1_witness :
    getItem staleStore "session" (some isSession) =
      some (JVal.obj [("accessToken", JVal.str "stale"), ("expires", JVal.num 0)]) ∧
    asNum (jget (JVal.obj [("accessToken", JVal.str "stale"), ("expires", JVal.num 0)])
      "expires") ≤ 1000 ∧
    jsTruthy (jget (JVal.obj [("accessToken", JVal.str "stale"), ("expires", JVal.num 0)])
      "refreshToken") = false ∧
    getAccessTokenRun 1000 staleStore JVal.null =
      (.ok (asStr (jget (JVal.obj [("accessToken", JVal.str "stale"),
        ("expires", JVal.num 0)]) "accessToken")), staleStore, 0) :=
  ⟨by decide, by decide, by decide,
    c1_amended_stale_token_returned 1000 staleStore JVal.null _
      (by decide) (by decide) (by decide)⟩

/-- C6: the PKCE challenge is a deterministic function of the verifier, and
its base64url output never contains `+`, `/` or `=` (the standard-alphabet
`+` and `/` are rewritten to `-` and `_`, padding `=` is stripped). -/
theorem c6_challenge_base64url (sha256 : String → List Nat) (v w : String) :
    (v = w → challenge sha256 v = challenge sha256 w) ∧
    ∀ c ∈ (challenge sha256 v).data, ¬(c = '+' ∨ c = '/' ∨ c = '=') := by
  constructor
  · intro h
    rw [h]
  · intro c hc
    have hc' : c ∈ (((btoa (sha256 v)).map (fun c => if c = '+' then '-' else c)).map
        (fun c => if c = '/' then '_' else c)).filter (fun c => !(c = '=')) := hc
    rw [List.mem_filter] at hc'
    obtain ⟨hmem, heq⟩ := hc'
    rw [List.mem_map] at hmem
    obtain ⟨b, hb, rfl⟩ := hmem
    rw [List.mem_map] at hb
    obtain ⟨a, _, rfl⟩ := hb
    rintro (h | h | h)
    · by_cases ha : a = '+' <;> by_cases ha2 : (if a = '+' then '-' else a) = '/' <;>
        simp [ha, ha2] at h <;> simp_all
    · by_cases ha : a = '+' <;> by_cases ha2 : (if a = '+' then '-' else a) = '/' <;>
        simp [ha, ha2] at h <;> simp_all
    · simp [h] at heq

/-- C6 witness: the challenge of a one-byte digest contains the character `A`
and that character is none of `+`, `/`, `=`. -/
theorem c6_witness :
    'A' ∈ (challenge (fun _ => [0]) "x").data ∧
    ¬('A' = '+' ∨ 'A' = '/' ∨ 'A' = '=') :=
  ⟨by decide, (c6_challenge_base64url (fun _ => [0]) "x" "x").2 'A' (by decide)⟩

/-- Searching for key `k` is unaffected by dropping the entries of a
different key `k'`. -/
theorem find_filter_ne (k k' : String) (h : k ≠ k') (l : List (String × String)) :
    List.find? (fun p => p.1 == k) (l.filter (fun p => !(p.1 == k'))) =
      List.find? (fun p => p.1 == k) l := by
  induction l with
  | nil => rfl
  | cons p rest ih =>
      obtain ⟨a, b⟩ := p
      by_cases hk : a = k
      · have h1 : (a == k) = true := beq_iff_eq.mpr hk
        have h2 : (a == k') = false :=
          beq_eq_false_iff_ne.mpr (by rw [hk]; exact h)
        simp [List.filter_cons, List.find?_cons, h1, h2]
      · have h1 : (a == k) = false := beq_eq_false_iff_ne.mpr hk
        by_cases hk2 : a = k'
        · have h2 : (a == k') = true := beq_iff_eq.mpr hk2
          simp [List.filter_cons, List.find?_cons, h1, h2, ih]
        · have h2 : (a == k') = false := beq_eq_false_iff_ne.mpr hk2
          simp [List.filter_cons, List.find?_cons, h1, h2, ih]

/-- After `URLSearchParams.set ps k v`, looking up `k` yields `v`. -/
theorem lookup_set_self (ps : List (String × String)) (k v : String) :
    lookupParam (uspSet ps k v) k = some v := by
  induction ps with
  | nil => simp [uspSet, lookupParam, List.find?_cons, beq_self_eq_true]
  | cons p rest ih =>
      obtain ⟨k', v'⟩ := p
      by_cases hk : k' = k
      · simp [uspSet, if_pos hk, lookupParam, List.find?_cons, beq_self_eq_true]
      · have h1 : (k' == k) = false := beq_eq_false_iff_ne.mpr hk
        simp only [uspSet, if_neg hk]
        simpa [lookupParam, List.find?_cons, h1] using ih

/-- After `URLSearchParams.set ps k' v`, looking up a different key `k` is
unchanged. -/
theorem lookup_set_other (ps : List (String × String)) (k k' v : String)
    (h : k ≠ k') : lookupParam (uspSet ps k' v) k = lookupParam ps k := by
  induction ps with
  | nil =>
      have h0 : (k' == k) = false := beq_eq_false_iff_ne.mpr (Ne.symm h)
      simp [uspSet, lookupParam, List.find?_cons, h0]
  | cons p rest ih =>
      obtain ⟨a, b⟩ := p
      by_cases ha : a = k'
      · subst ha
        have h0 : (a == k) = false := beq_eq_false_iff_ne.mpr (Ne.symm h)
        simp only [uspSet, if_pos rfl]
        simp [lookupParam, List.find?_cons, h0, find_filter_ne k a h rest]
      · simp only [uspSet, if_neg ha]
        by_cases hak : a = k
        · have h1 : (a == k) = true := beq_iff_eq.mpr hak
          simp [lookupParam, List.find?_cons, h1]
        · have h1 : (a == k) = false := beq_eq_false_iff_ne.mpr hak
          simpa [lookupParam, List.find?_cons, h1] using ih

/-- Applying a list of entries through `URLSearchParams.set`: the final value
of key `k` is the last value the entries carry for `k`, or the original one
when they never mention `k`. -/
theorem lookup_foldl_set (addl : List (String × String)) :
    ∀ (ps : List (String × String)) (k : String),
      lookupParam (addl.foldl (fun acc kv => uspSet acc kv.1 kv.2) ps) k =
        match lastValue addl k with
        | some w => some w
        | none => lookupParam ps k := by
  induction addl with
  | nil => intro ps k; rfl
  | cons kv rest ih =>
      intro ps k
      obtain ⟨k0, v0⟩ := kv
      simp only [List.foldl, lastValue, ih]
      cases hlast : lastValue rest k with
      | some w => rfl
      | none =>
          by_cases hk : k0 = k
          · subst hk
            simp [lookup_set_self]
          · simp [if_neg hk, lookup_set_other ps k k0 v0 (Ne.symm hk)]

/-- Looking up any key in the authorize query: the last value
`additionalParameters` carries for it, or its required value when the
caller never mentions it. -/
theorem loginParams_lookup_merge (clientId : String) (domainHint : Option String)
    (redirectUri ch : String) (prompt acrValues : Option String) (s k : String) :
    lookupParam (loginParams clientId domainHint redirectUri ch prompt acrValues
        (some s)) k =
      match lastValue (parseQueryString s) k with
      | some w => some w
      | none =>
          lookupParam (loginParams clientId domainHint redirectUri ch prompt
            acrValues none) k := by
  by_cases hs : s = ""
  · subst hs
    rfl
  · simp only [loginParams, if_neg hs]
    exact lookup_foldl_set (parseQueryString s) _ k

/-- A concrete `login` run with `clientId = "test-client"` and
`additionalParameters = "client_id=evil"`. -/
def evilLogin : LoginResult :=
  loginRun (fun _ => [171]) [1, 2, 3] "test-client" none "https://app.example/auth"
    none none (some "client_id=evil")

/-- C5 counterexample: with provider `clientId = "test-client"` and
caller-supplied `additionalParameters = "client_id=evil"`, the authorize URL
carries `client_id=evil` — the caller's value *does* override the required
parameter, contradicting the claim. -/
theorem c5_counterexample :
    lookupParam evilLogin.urlParams "client_id" = some "evil" ∧
    lookupParam evilLogin.urlParams "client_id" ≠ some "test-client" := by
  constructor
  · decide
  · decide

/-- C5 amended: the authorize URL always carries `client_id`,
`response_type`, `scope`, `code_challenge_method` and `code_challenge`; each
keeps its required value (`clientId`, `code`, `openid email`, `S256`, the
challenge derived from the stored verifier) unless the caller-supplied
`additionalParameters` contain the same key, in which case the caller's last
value for it overrides the required one. -/
theorem c5_amended_merge_overrides (sha256 : String → List Nat)
    (verifierBytes : List Nat) (clientId : String) (domainHint : Option String)
    (redirectUri : String) (prompt acrValues : Option String) (s : String) :
    lookupParam (loginRun sha256 verifierBytes clientId domainHint redirectUri
        prompt acrValues (some s)).urlParams "client_id" =
      some ((lastValue (parseQueryString s) "client_id").getD clientId) ∧
    lookupParam (loginRun sha256 verifierBytes clientId domainHint redirectUri
        prompt acrValues (some s)).urlParams "response_type" =
      some ((lastValue (parseQueryString s) "response_type").getD "code") ∧
    lookupParam (loginRun sha256 verifierBytes clientId domainHint redirectUri
        prompt acrValues (some s)).urlParams "scope" =
      some ((lastValue (parseQueryString s) "scope").getD "openid email") ∧
    lookupParam (loginRun sha256 verifierBytes clientId domainHint redirectUri
        prompt acrValues (some s)).urlParams "code_challenge_method" =
      some ((lastValue (parseQueryString s) "code_challenge_method").getD "S256") ∧
    lookupParam (loginRun sha256 verifierBytes clientId domainHint redirectUri
        prompt acrValues (some s)).urlParams "code_challenge" =
      some ((lastValue (parseQueryString s) "code_challenge").getD
        (challenge sha256 (loginRun sha256 verifierBytes clientId domainHint
          redirectUri prompt acrValues (some s)).storedKey)) := by
  refine ⟨?_, ?_, ?_, ?_, ?_⟩ <;>
    · show lookupParam (loginParams clientId domainHint redirectUri
        (challenge sha256 (base64encode verifierBytes)) prompt acrValues
        (some s)) _ = _
      rw [loginParams_lookup_merge]
      cases hl : lastValue (parseQueryString s) _ with
      | none => simp only [hl, Option.getD_none]; rfl
      | some w => simp [hl]

/-- `stripUndefined` produces `undefined` only from `undefined`. -/
theorem strip_eq_undef_iff (v : JVal) :
    stripUndefined v = JVal.undefined ↔ v = JVal.undefined := by
  cases v <;> simp [stripUndefined]

/-- `stripUndefined` preserves `typeof`. -/
theorem jtypeof_strip (v : JVal) : jtypeof (stripUndefined v) = jtypeof v := by
  cases v <;> rfl

/-- `stripUndefined` preserves `isStringOrUndefined`. -/
theorem isSOU_strip (v : JVal) :
    isStringOrUndefined (stripUndefined v) = isStringOrUndefined v := by
  cases v <;> rfl

/-- `==` on `JVal` is the structural test `JVal.beq`. -/
theorem jval_beq_eq (a b : JVal) : (a == b) = JVal.beq a b := rfl

/-- An object satisfies the `isObject` check. -/
theorem isObject_obj (fs : List (String × JVal)) :
    isObject (JVal.obj fs) = true := rfl

/-- A string-or-undefined value is untouched by `stripUndefined`. -/
theorem strip_of_isSOU (v : JVal) (h : isStringOrUndefined v = true) :
    stripUndefined v = v := by
  cases v <;>
    first
    | rfl
    | simp [isStringOrUndefined, jtypeof, jval_beq_eq, JVal.beq] at h

/-- A key absent from a field list stays absent after `stripFields`. -/
theorem find_strip_none (k : String) (fs : List (String × JVal))
    (h : List.find? (fun p => p.1 == k) fs = none) :
    List.find? (fun p => p.1 == k) (stripFields fs) = none := by
  induction fs with
  | nil => rfl
  | cons p rest ih =>
      obtain ⟨a, v⟩ := p
      rw [List.find?_cons] at h
      cases hak : (a == k) with
      | true => rw [hak] at h; exact absurd h (by simp)
      | false =>
          rw [hak] at h
          by_cases hv : (v == JVal.undefined) = true
          · simp only [stripFields, if_pos hv]
            exact ih h
          · simp only [stripFields, if_neg hv]
            rw [List.find?_cons, hak]
            exact ih h

/-- On an object with pairwise-distinct keys, property access commutes with
`stripUndefined` (an entry whose value is `undefined` reads as `undefined`
whether it is stored or dropped). -/
theorem jget_strip (k : String) (fs : List (String × JVal))
    (h : keysNodup fs = true) :
    jget (JVal.obj (stripFields fs)) k = stripUndefined (jget (JVal.obj fs) k) := by
  induction fs with
  | nil => rfl
  | cons p rest ih =>
      obtain ⟨a, v⟩ := p
      simp only [keysNodup, Bool.and_eq_true] at h
      obtain ⟨hna, hrest⟩ := h
      by_cases hak : a = k
      · subst hak
        have hfind : List.find? (fun p => p.1 == a) rest = none := by
          rw [List.find?_eq_none]
          intro x hx
          simp only [Bool.not_eq_true', List.any_eq_false] at hna
          exact fun hxx => by simpa [hxx] using hna x hx
        by_cases hv : (v == JVal.undefined) = true
        · have hv' : v = JVal.undefined := JVal.eq_of_beq v JVal.undefined hv
          subst hv'
          simp only [stripFields, if_pos hv]
          simp [jget, List.find?_cons, find_strip_none a rest hfind, stripUndefined]
        · simp only [stripFields, if_neg hv]
          simp [jget, List.find?_cons]
      · have hak' : (a == k) = false := beq_eq_false_iff_ne.mpr hak
        by_cases hv : (v == JVal.undefined) = true
        · simp only [stripFields, if_pos hv]
          rw [ih hrest]
          simp [jget, List.find?_cons, hak']
        · simp only [stripFields, if_neg hv]
          have lhs : jget (JVal.obj ((a, stripUndefined v) :: stripFields rest)) k =
              jget (JVal.obj (stripFields rest)) k := by
            simp [jget, List.find?_cons, hak']
          have rhs : jget (JVal.obj ((a, v) :: rest)) k = jget (JVal.obj rest) k := by
            simp [jget, List.find?_cons, hak']
          rw [lhs, rhs, ih hrest]

/-- `stripUndefined` preserves the session shape predicate on an object with
pairwise-distinct keys. -/
theorem isSession_strip_obj (fs : List (String × JVal)) (hnd : keysNodup fs = true) :
    isSession (JVal.obj (stripFields fs)) = isSession (JVal.obj fs) := by
  simp only [isSession, jget_strip _ fs hnd, jtypeof_strip, isSOU_strip,
    isObject_obj]

/-- `stripUndefined` preserves the session shape predicate on genuine
JavaScript values. -/
theorem isSession_strip (v : JVal) (h : JVal.wf v = true) :
    isSession (stripUndefined v) = isSession v := by
  cases v with
  | obj fs =>
      simp only [JVal.wf, Bool.and_eq_true] at h
      exact isSession_strip_obj fs h.1
  | undefined => rfl
  | null => rfl
  | bool b => rfl
  | num q => rfl
  | str s => rfl

mutual

theorem strip_idem : ∀ v : JVal, stripUndefined (stripUndefined v) = stripUndefined v
  | .undefined => rfl
  | .null => rfl
  | .bool _ => rfl
  | .num _ => rfl
  | .str _ => rfl
  | .obj fs => congrArg JVal.obj (stripFields_idem fs)

theorem stripFields_idem :
    ∀ fs : List (String × JVal), stripFields (stripFields fs) = stripFields fs
  | [] => rfl
  | (k, v) :: rest => by
      by_cases hv : (v == JVal.undefined) = true
      · simp only [stripFields, if_pos hv]
        exact stripFields_idem rest
      · have h2 : ¬((stripUndefined v == JVal.undefined) = true) := by
          intro hh
          have hvu : v = JVal.undefined :=
            (strip_eq_undef_iff v).mp (JVal.eq_of_beq _ _ hh)
          subst hvu
          exact hv rfl
        simp only [stripFields, if_neg hv, if_neg h2]
        rw [strip_idem v, stripFields_idem rest]

end

/-- Writing a key then reading it back yields the written value. -/
theorem storeRead_write_self (st : Store) (k : String) (v : JVal) :
    storeRead (storeWrite st k v) k = some v := by
  simp [storeRead, storeWrite, List.find?_cons]

/-- C8: storing a value that passes the session shape predicate with
`setItem` and reading it back with `getItem` under the same key and predicate
yields the JSON round-trip of the value, which is deep-equal to it (`wf`
states the JavaScript well-formedness of the value: object keys are
pairwise distinct). -/
theorem c8_round_trip (st : Store) (k : String) (v : JVal)
    (hwf : JVal.wf v = true) (hs : isSession v = true) :
    getItem (setItem st k v (some isSession)) k (some isSession) =
      some (stripUndefined v) ∧
    deepEqual (stripUndefined v) v = true := by
  constructor
  · simp only [setItem, if_pos hs, getItem, storeRead_write_self]
    rw [isSession_strip v hwf, hs]
    simp
  · show (stripUndefined (stripUndefined v) == stripUndefined v) = true
    rw [strip_idem v]
    exact JVal.beq_refl _

/-- A concrete stored session: `refreshToken` explicitly `undefined`, a
non-integral `expires`. -/
def c8session : JVal :=
  JVal.obj [("accessToken", JVal.str "tok"), ("refreshToken", JVal.undefined),
    ("idToken", JVal.str "id1"), ("expires", JVal.num (3 / 2))]

/-- C8 witness: the round trip at a concrete session whose `refreshToken` is
an explicit `undefined` (dropped by serialization, still deep-equal). -/
theorem c8_witness :
    JVal.wf c8session = true ∧ isSession c8session = true ∧
    (getItem (setItem [] "session" c8session (some isSession)) "session"
        (some isSession) = some (stripUndefined c8session) ∧
     deepEqual (stripUndefined c8session) c8session = true) :=
  ⟨by decide, by decide, c8_round_trip [] "session" c8session (by decide) (by decide)⟩

/-- A session built by the exchange effect from a token-shaped response
passes the session shape predicate. -/
theorem isSession_exchange (opt : Bool) (now : ℚ) (tr : JVal)
    (htr : isTokenResponse tr = true) :
    isSession (sessionFromExchange opt now tr) = true := by
  simp only [isTokenResponse, Bool.and_eq_true] at htr
  obtain ⟨⟨⟨⟨⟨hobj, hat⟩, hrt⟩, hid⟩, htt⟩, hei⟩ := htr
  have k0 : isObject (sessionFromExchange opt now tr) = true := rfl
  have k1 : jget (sessionFromExchange opt now tr) "accessToken" =
      jget tr "access_token" := rfl
  have k2 : jget (sessionFromExchange opt now tr) "refreshToken" =
      (if opt then jget tr "refresh_token" else JVal.undefined) := rfl
  have k3 : jget (sessionFromExchange opt now tr) "idToken" =
      jget tr "id_token" := rfl
  have k4 : jget (sessionFromExchange opt now tr) "expires" =
      JVal.num (now + asNum (jget tr "expires_in") * 1000) := rfl
  simp only [isSession, k0, k1, k2, k3, k4, hat, hid, Bool.true_and, Bool.and_true]
  cases opt with
  | true => simp [hrt, jtypeof]
  | false =>
      simp [isStringOrUndefined, jtypeof]
      exact Or.inl rfl

/-- C4: a successful authorization-code exchange with a token-shaped response
and no stored session persists a session whose `accessToken`, `idToken` and
`expires = now + expires_in*1000` come from the response, whose
`refreshToken` is the response's `refresh_token` exactly when the
`refreshSession` provider option is enabled (absent otherwise), and clears
the stored PKCE verifier (and `loginUrl`). -/
theorem c4_exchange_persists_session (opt : Bool) (now : ℚ) (tr : JVal)
    (code : Option String) (st : FlowState)
    (hns : getItem st.localStore "session" (some isSession) = none)
    (htr : isTokenResponse tr = true) :
    getItem (exchangeEffect opt now "success" tr code st).localStore "session"
        (some isSession) = some (stripUndefined (sessionFromExchange opt now tr)) ∧
    jget (stripUndefined (sessionFromExchange opt now tr)) "accessToken" =
      jget tr "access_token" ∧
    jget (stripUndefined (sessionFromExchange opt now tr)) "idToken" =
      jget tr "id_token" ∧
    jget (stripUndefined (sessionFromExchange opt now tr)) "expires" =
      JVal.num (now + asNum (jget tr "expires_in") * 1000) ∧
    jget (stripUndefined (sessionFromExchange opt now tr)) "refreshToken" =
      (if opt then jget tr "refresh_token" else JVal.undefined) ∧
    (exchangeEffect opt now "success" tr code st).pkceKey = none ∧
    (exchangeEffect opt now "success" tr code st).loginUrl = none := by
  have hsess := isSession_exchange opt now tr htr
  have hnd : keysNodup (exchangeFields opt now tr) = true := rfl
  have hstrip : stripUndefined (sessionFromExchange opt now tr) =
      JVal.obj (stripFields (exchangeFields opt now tr)) := rfl
  have hsess' : isSession (stripUndefined (sessionFromExchange opt now tr)) = true := by
    rw [hstrip, isSession_strip_obj _ hnd]
    exact hsess
  have htr' := htr
  simp only [isTokenResponse, Bool.and_eq_true] at htr'
  obtain ⟨⟨⟨⟨⟨hobj, hat⟩, hrt⟩, hid⟩, htt⟩, hei⟩ := htr'
  have hsouA : isStringOrUndefined (jget tr "access_token") = true := by
    simp [isStringOrUndefined, hat]
  have jf : ∀ k2 : String,
      jget (stripUndefined (sessionFromExchange opt now tr)) k2 =
        stripUndefined (jget (sessionFromExchange opt now tr) k2) := fun k2 => by
    rw [hstrip]
    exact jget_strip k2 _ hnd
  have f1 : jget (stripUndefined (sessionFromExchange opt now tr)) "accessToken" =
      jget tr "access_token" := by
    rw [jf]
    exact strip_of_isSOU _ hsouA
  have f2 : jget (stripUndefined (sessionFromExchange opt now tr)) "idToken" =
      jget tr "id_token" := by
    rw [jf]
    exact strip_of_isSOU _ hid
  have f3 : jget (stripUndefined (sessionFromExchange opt now tr)) "expires" =
      JVal.num (now + asNum (jget tr "expires_in") * 1000) := by
    rw [jf]
    rfl
  have f4 : jget (stripUndefined (sessionFromExchange opt now tr)) "refreshToken" =
      (if opt then jget tr "refresh_token" else JVal.undefined) := by
    rw [jf]
    cases opt with
    | true =>
        show stripUndefined (jget tr "refresh_token") = jget tr "refresh_token"
        exact strip_of_isSOU _ hrt
    | false => rfl
  have hwrite : setItem st.localStore "session" (sessionFromExchange opt now tr)
      (some isSession) =
        storeWrite st.localStore "session"
          (stripUndefined (sessionFromExchange opt now tr)) := by
    simp only [setItem, hsess, if_true]
  have hget : getItem (setItem st.localStore "session"
      (sessionFromExchange opt now tr) (some isSession)) "session"
        (some isSession) = some (stripUndefined (sessionFromExchange opt now tr)) := by
    rw [hwrite]
    simp only [getItem, storeRead_write_self, hsess', if_true]
  have hred : exchangeEffect opt now "success" tr code st =
      (if optTruthy code && optTruthy st.entrypoint then
        { st with
          pkceKey := none, loginUrl := none,
          localStore := setItem st.localStore "session"
            (sessionFromExchange opt now tr) (some isSession),
          entrypoint := none, navTarget := st.entrypoint }
      else
        { st with
          pkceKey := none, loginUrl := none,
          localStore := setItem st.localStore "session"
            (sessionFromExchange opt now tr) (some isSession) }) := by
    unfold exchangeEffect
    rw [hns, htr]
    rfl
  refine ⟨?_, f1, f2, f3, f4, ?_, ?_⟩ <;> rw [hred] <;>
    by_cases hb : (optTruthy code && optTruthy st.entrypoint) = true <;>
      simp only [hb, if_true, Bool.not_eq_true] <;>
        first
        | exact hget
        | rfl

/-- The spec's scenario token response:
`\x7baccess_token:"a1", refresh_token:"r1", id_token:"i1", token_type:"Bearer",
expires_in:3600\x7d`. -/
def c4tr : JVal :=
  JVal.obj [("access_token", JVal.str "a1"), ("refresh_token", JVal.str "r1"),
    ("id_token", JVal.str "i1"), ("token_type", JVal.str "Bearer"),
    ("expires_in", JVal.num 3600)]

/-- A provider state with no stored session, a pending verifier and an
entrypoint. -/
def c4st : FlowState := ⟨[], some "ver", some "/home", some "u", none⟩

/-- C4 witness: the exchange effect run on the spec's scenario response with
the `refreshSession` option enabled. -/
theorem c4_witness :
    getItem c4st.localStore "session" (some isSession) = none ∧
    isTokenResponse c4tr = true ∧
    (getItem (exchangeEffect true 1700000000000 "success" c4tr (some "abc")
        c4st).localStore "session" (some isSession) =
      some (stripUndefined (sessionFromExchange true 1700000000000 c4tr)) ∧
     jget (stripUndefined (sessionFromExchange true 1700000000000 c4tr))
        "accessToken" = jget c4tr "access_token" ∧
     jget (stripUndefined (sessionFromExchange true 1700000000000 c4tr))
        "idToken" = jget c4tr "id_token" ∧
     jget (stripUndefined (sessionFromExchange true 1700000000000 c4tr))
        "expires" =
      JVal.num (1700000000000 + asNum (jget c4tr "expires_in") * 1000) ∧
     jget (stripUndefined (sessionFromExchange true 1700000000000 c4tr))
        "refreshToken" =
      (if true then jget c4tr "refresh_token" else JVal.undefined) ∧
     (exchangeEffect true 1700000000000 "success" c4tr (some "abc")
        c4st).pkceKey = none ∧
     (exchangeEffect true 1700000000000 "success" c4tr (some "abc")
        c4st).loginUrl = none) :=
  ⟨by decide, by decide,
    c4_exchange_persists_session true 1700000000000 c4tr (some "abc") c4st
      (by decide) (by decide)⟩

end ReactLib
